import Mathlib

/-!
Shallow embedding of the plan-validation module of the `date_planner`
repository (`validators.py`, class `InputValidator`).  Python strings are
modelled as Lean `String`s restricted to their ASCII behaviour (lowering,
stripping and the regex character classes treat only ASCII characters
specially, exactly as the source does on the inputs of interest).  The
current wall-clock date, read once per validator instance in the source,
is passed explicitly as a `SimpleDate` parameter.  `datetime.strptime`
and `datetime.replace`, which signal failure with `ValueError`, are
modelled as `Option`-returning functions; the source's
`except ValueError: continue` becomes falling through to the next
pattern of the pattern list.
-/

/-- Calendar date, mirroring the `(year, month, day)` triple of a Python
`datetime.date`.  Comparison of Python dates is lexicographic. -/
structure SimpleDate where
  year : Nat
  month : Nat
  day : Nat
deriving DecidableEq

/-- Python `date.__lt__`: lexicographic comparison on (year, month, day). -/
def dateLtB (a b : SimpleDate) : Bool :=
  a.year < b.year ||
    (a.year == b.year &&
      (a.month < b.month || (a.month == b.month && a.day < b.day)))

/-- Gregorian leap-year rule used by Python's `datetime`. -/
def isLeap (y : Nat) : Bool :=
  y % 4 == 0 && (y % 100 != 0 || y % 400 == 0)

/-- Number of days of month `m` in year `y` (Python `calendar`/`datetime`). -/
def daysInMonth (y m : Nat) : Nat :=
  if m == 2 then (if isLeap y then 29 else 28)
  else if m == 4 || m == 6 || m == 9 || m == 11 then 30
  else 31

/-- `datetime.replace(year=y)`: fails (`ValueError`) when the day does not
exist in the target year (February 29 into a non-leap year). -/
def replaceYear (d : SimpleDate) (y : Nat) : Option SimpleDate :=
  if d.day ≤ daysInMonth y d.month then some ⟨y, d.month, d.day⟩ else Option.none

/-- ASCII lowering, the behaviour of Python `str.lower` on ASCII text. -/
def pyLowerChar (c : Char) : Char :=
  if 'A' ≤ c && c ≤ 'Z' then Char.ofNat (c.toNat + 32) else c

/-- ASCII whitespace, the characters Python `str.strip` removes and the
regex class `\s` matches on ASCII text. -/
def isSpaceC (c : Char) : Bool :=
  c == ' ' || c == '\t' || c == '\n' || c == '\x0d' || c == '\x0b' || c == '\x0c'

/-- ASCII decimal digit, the regex class `\d` on ASCII text. -/
def isDigitC (c : Char) : Bool :=
  '0' ≤ c && c ≤ '9'

/-- Python `str.strip`: drop whitespace from both ends. -/
def pyStrip (l : List Char) : List Char :=
  ((l.dropWhile isSpaceC).reverse.dropWhile isSpaceC).reverse

/-- Pack a character list back into a `String`. -/
def strOf (l : List Char) : String := String.mk l

/-- Python `s.lower().strip()`, the normalisation applied to the city,
timing and date-type fields. -/
def pyNorm (s : String) : List Char :=
  pyStrip (s.toList.map pyLowerChar)

/-- `needle` is a prefix of `hay` (character-wise). -/
def headMatch : List Char → List Char → Bool
  | [], _ => true
  | _ :: _, [] => false
  | a :: as, b :: bs => a == b && headMatch as bs

/-- Python `needle in hay` on strings: substring containment. -/
def containsSub (needle : List Char) : List Char → Bool
  | [] => headMatch needle []
  | hay@(_ :: rest) => headMatch needle hay || containsSub needle rest

/-- Numeric value of a list of ASCII digits. -/
def natOfDigits (ds : List Char) : Nat :=
  ds.foldl (fun a c => a * 10 + (c.toNat - 48)) 0

/-- `re.search`: try the matcher at every start position, leftmost first
(the final, empty position included). -/
def searchList (f : List Char → Option α) : List Char → Option α
  | [] => f []
  | s@(_ :: rest) =>
    match f s with
    | some r => some r
    | Option.none => searchList f rest

/-- Month-name alternation of the date regexes: 1-based index of the first
name in `ms` that is a prefix of `s` (regex alternation is first-match). -/
def monthAtAux : Nat → List (List Char) → List Char → Option Nat
  | _, [], _ => Option.none
  | i, m :: ms, s => if headMatch m s then some i else monthAtAux (i + 1) ms s

/-- 1-based month number of the month-name alternative matching at `s`. -/
def monthAt (ms : List (List Char)) (s : List Char) : Option Nat :=
  monthAtAux 1 ms s

/-- The abbreviated month names of the first timing pattern. -/
def monthAbbrevs : List (List Char) :=
  ["jan", "feb", "mar", "apr", "may", "jun",
   "jul", "aug", "sep", "oct", "nov", "dec"].map String.toList

/-- The full month names of the second timing pattern. -/
def monthFulls : List (List Char) :=
  ["january", "february", "march", "april", "may", "june", "july",
   "august", "september", "october", "november", "december"].map String.toList

/-- `\s+` followed by a month name: a nonempty (greedy) whitespace run,
then the month alternation.  A backtracked shorter whitespace run would
leave a whitespace character where a month name must start, so taking the
maximal run is exactly the regex behaviour. -/
def wsMonth (months : List (List Char)) (r : List Char) : Option Nat :=
  if (r.takeWhile isSpaceC).isEmpty then Option.none
  else monthAt months (r.dropWhile isSpaceC)

/-- One alternative of the optional ordinal suffix `(st|nd|rd|th)?`:
require `suf` here, then whitespace and a month name. -/
def ordCont (months : List (List Char)) (suf : List Char) (s : List Char) :
    Option Nat :=
  if headMatch suf s then wsMonth months (s.drop suf.length) else Option.none

/-- After the day digits: the optional ordinal suffix (alternatives in
regex order, then the empty alternative), whitespace, and a month name. -/
def afterDay (months : List (List Char)) (s : List Char) : Option Nat :=
  match ordCont months ['s', 't'] s with
  | some m => some m
  | Option.none =>
  match ordCont months ['n', 'd'] s with
  | some m => some m
  | Option.none =>
  match ordCont months ['r', 'd'] s with
  | some m => some m
  | Option.none =>
  match ordCont months ['t', 'h'] s with
  | some m => some m
  | Option.none => wsMonth months s

/-- Anchored match of `(\d{1,2})(st|nd|rd|th)?\s+(month names)` at the
head of `s`: day value and month number.  `\d{1,2}` is greedy (two digits
first), backtracking to one digit when the remainder fails. -/
def matchDM (months : List (List Char)) (s : List Char) : Option (Nat × Nat) :=
  match s with
  | c1 :: c2 :: rest =>
    match (if isDigitC c1 && isDigitC c2 then
            (afterDay months rest).map (fun m => (natOfDigits [c1, c2], m))
          else Option.none) with
    | some r => some r
    | Option.none =>
      if isDigitC c1 then
        (afterDay months (c2 :: rest)).map (fun m => (natOfDigits [c1], m))
      else Option.none
  | [c1] =>
    if isDigitC c1 then (afterDay months []).map (fun m => (natOfDigits [c1], m))
    else Option.none
  | [] => Option.none

/-- `\d{1,2}` with continuation `k` (value, rest): greedy two digits,
backtracking to one. -/
def numThen (s : List Char) (k : Nat → List Char → Option α) : Option α :=
  match s with
  | c1 :: c2 :: rest =>
    match (if isDigitC c1 && isDigitC c2 then k (natOfDigits [c1, c2]) rest
           else Option.none) with
    | some r => some r
    | Option.none => if isDigitC c1 then k (natOfDigits [c1]) (c2 :: rest) else Option.none
  | [c1] => if isDigitC c1 then k (natOfDigits [c1]) [] else Option.none
  | [] => Option.none

/-- A literal character with continuation `k`. -/
def litThen (c : Char) (s : List Char) (k : List Char → Option α) : Option α :=
  match s with
  | x :: rest => if x == c then k rest else Option.none
  | [] => Option.none

/-- `\d{4}` with continuation `k` (value, rest). -/
def fourDigits (s : List Char) (k : Nat → List Char → Option α) : Option α :=
  match s with
  | a :: b :: c :: d :: rest =>
    if isDigitC a && isDigitC b && isDigitC c && isDigitC d then
      k (natOfDigits [a, b, c, d]) rest
    else Option.none
  | _ => Option.none

/-- Anchored match of `(\d{1,2})/(\d{1,2})/(\d{4})`: (day, month, year). -/
def matchDMY (s : List Char) : Option (Nat × Nat × Nat) :=
  numThen s (fun dv r1 => litThen '/' r1 (fun r2 =>
    numThen r2 (fun mv r3 => litThen '/' r3 (fun r4 =>
      fourDigits r4 (fun yv _ => some (dv, mv, yv))))))

/-- Anchored match of `(\d{4})-(\d{1,2})-(\d{1,2})`: (year, month, day). -/
def matchYMD (s : List Char) : Option (Nat × Nat × Nat) :=
  fourDigits s (fun yv r1 => litThen '-' r1 (fun r2 =>
    numThen r2 (fun mv r3 => litThen '-' r3 (fun r4 =>
      numThen r4 (fun dv _ => some (yv, mv, dv))))))

/-- `datetime.strptime(date_str, fmt)` for the `%d %b` / `%d %B` formats,
after the source has stripped ordinal suffixes from the matched text.
`%d` only accepts values 1..31, the day must exist in the month of the
default year 1900, and the month name must survive the suffix stripping:
the full name `august` contains `st` and is mangled to `augu`, so the
full-name pattern (`full = true`) can never parse month 8. -/
def strpDayMonth (full : Bool) (dv m : Nat) : Option SimpleDate :=
  if 1 ≤ m ∧ m ≤ 12 ∧ 1 ≤ dv ∧ dv ≤ 31 ∧ dv ≤ daysInMonth 1900 m ∧
      (full = false ∨ m ≠ 8) then
    some ⟨1900, m, dv⟩
  else Option.none

/-- `datetime.strptime` for the `%d/%m/%Y` and `%Y-%m-%d` formats:
`%d` accepts 1..31, `%m` accepts 1..12, and the `datetime` constructor
requires year ≥ 1 and the day to exist in the month of that year. -/
def strpDMY (dv mv yv : Nat) : Option SimpleDate :=
  if 1 ≤ dv ∧ dv ≤ 31 ∧ 1 ≤ mv ∧ mv ≤ 12 ∧ 1 ≤ yv ∧ dv ≤ daysInMonth yv mv then
    some ⟨yv, mv, dv⟩
  else Option.none

/-- `if parsed_date.year == 1900: parsed_date.replace(year=current_year)`;
the replace is checked like the source's (a `ValueError` would propagate
to the pattern loop's handler). -/
def fixYear (cur : SimpleDate) (d : SimpleDate) : Option SimpleDate :=
  if d.year = 1900 then replaceYear d cur.year else some d

/-- Pattern 1 of the source: search `(\d{1,2})(st|nd|rd|th)?\s+(jan|...)`,
parse with `%d %b`, then resolve the 1900 default year. -/
def pA (cur : SimpleDate) (tl : List Char) : Option SimpleDate :=
  (searchList (matchDM monthAbbrevs) tl).bind fun p =>
    (strpDayMonth false p.1 p.2).bind (fixYear cur)

/-- Pattern 2: full month names, parsed with `%d %B`. -/
def pB (cur : SimpleDate) (tl : List Char) : Option SimpleDate :=
  (searchList (matchDM monthFulls) tl).bind fun p =>
    (strpDayMonth true p.1 p.2).bind (fixYear cur)

/-- Pattern 3: `(\d{1,2})/(\d{1,2})/(\d{4})` parsed with `%d/%m/%Y`. -/
def pC (cur : SimpleDate) (tl : List Char) : Option SimpleDate :=
  (searchList matchDMY tl).bind fun p =>
    (strpDMY p.1 p.2.1 p.2.2).bind (fixYear cur)

/-- Pattern 4: `(\d{4})-(\d{1,2})-(\d{1,2})` parsed with `%Y-%m-%d`. -/
def pD (cur : SimpleDate) (tl : List Char) : Option SimpleDate :=
  (searchList matchYMD tl).bind fun p =>
    (strpDMY p.2.2 p.2.1 p.1).bind (fixYear cur)

/-- The source's `date_patterns` list, in priority order. -/
def patternList (cur : SimpleDate) : List (List Char → Option SimpleDate) :=
  [pA cur, pB cur, pC cur, pD cur]

/-- Full month name as produced by `strftime('%B')`. -/
def monthName : Nat → String
  | 1 => "January"
  | 2 => "February"
  | 3 => "March"
  | 4 => "April"
  | 5 => "May"
  | 6 => "June"
  | 7 => "July"
  | 8 => "August"
  | 9 => "September"
  | 10 => "October"
  | 11 => "November"
  | 12 => "December"
  | _ => ""

/-- `strftime('%d')`: zero-padded two-digit day. -/
def pad2 (n : Nat) : String :=
  if n < 10 then "0" ++ toString n else toString n

/-- `strftime('%B %d')`, the corrected timing of the next-year branch. -/
def fmtMD (m day : Nat) : String :=
  monthName m ++ " " ++ pad2 day

/-- `strftime('%B %d, %Y')` (years ≥ 1000 assumed, as in every use). -/
def fmtBdY (d : SimpleDate) : String :=
  fmtMD d.month d.day ++ ", " ++ toString d.year

/-- The comparison/guardrail step on a successfully parsed, year-resolved
date: reject past dates, except that a past date of an earlier month is
reinterpreted as next year.  `Option.none` models a `ValueError` escaping
from `replace(year=current_year+1)`, which the loop's handler turns into
`continue`. -/
def finishDate (cur : SimpleDate) (timing : String) (d : SimpleDate) :
    Option (Bool × String × String) :=
  if dateLtB d cur then
    if d.month < cur.month then
      match replaceYear d (cur.year + 1) with
      | some r =>
        some (true, "⚠️ Date adjusted to " ++ fmtBdY r ++ " (next year)", fmtMD r.month r.day)
      | Option.none => Option.none
    else
      some (false, "❌ Date '" ++ timing ++ "' is in the past. Please choose a future date.",
            "today")
  else some (true, "", timing)

/-- The `for pattern, date_format in date_patterns` loop: a pattern whose
search or parse fails, or whose processing raises `ValueError`, falls
through to the next; exhaustion is the fail-open acceptance. -/
def loopPatterns (cur : SimpleDate) (timing : String) :
    List (List Char → Option SimpleDate) → List Char → Bool × String × String
  | [], _ => (true, "", timing)
  | p :: ps, tl =>
    match p tl with
    | Option.none => loopPatterns cur timing ps tl
    | some d =>
      match finishDate cur timing d with
      | Option.none => loopPatterns cur timing ps tl
      | some r => r

/-- `InputValidator._validate_date_time`. -/
def _validate_date_time (cur : SimpleDate) (timing : String) :
    Bool × String × String :=
  let tl := pyNorm timing
  if tl == "today".toList || tl == "tonight".toList || tl == "this evening".toList then
    (true, "", timing)
  else if tl == "tomorrow".toList then
    (true, "", timing)
  else if containsSub "weekend".toList tl || containsSub "this week".toList tl then
    (true, "", timing)
  else loopPatterns cur timing (patternList cur) tl

/-- The keyword short-circuit of `_validate_date_time`, as one predicate. -/
def isKeyword (tl : List Char) : Bool :=
  tl == "today".toList || tl == "tonight".toList || tl == "this evening".toList ||
    tl == "tomorrow".toList ||
    containsSub "weekend".toList tl || containsSub "this week".toList tl

/-- The date extraction performed inside `_validate_date_time`: when the
keyword short-circuit does not fire, the first pattern whose search,
parse and year resolution succeed yields the resolved date. -/
def firstParse : List (List Char → Option SimpleDate) → List Char → Option SimpleDate
  | [], _ => Option.none
  | p :: ps, tl =>
    match p tl with
    | some d => some d
    | Option.none => firstParse ps tl

/-- The resolved date the timing validator's parser extracts from a
timing string (`Option.none` when the keyword short-circuit fires or no
pattern yields a parseable date). -/
def extractDate (cur : SimpleDate) (timing : String) : Option SimpleDate :=
  let tl := pyNorm timing
  if isKeyword tl then Option.none else firstParse (patternList cur) tl

/-- `InputValidator.SUPPORTED_CITIES`. -/
def SUPPORTED_CITIES : List String :=
  ["mumbai", "delhi", "bangalore", "bengaluru", "hyderabad",
   "chennai", "kolkata", "pune", "ahmedabad", "jaipur",
   "surat", "lucknow", "kanpur", "nagpur", "indore",
   "thane", "bhopal", "visakhapatnam", "pimpri-chinchwad",
   "patna", "gurgaon", "gurugram", "noida", "ghaziabad"]

/-- `InputValidator._validate_city`. -/
def _validate_city (city : String) : Bool × String × String :=
  let city_lower := strOf (pyNorm city)
  if city_lower == "" then
    (false, "City not specified", "Bangalore")
  else if !(SUPPORTED_CITIES.contains city_lower) then
    (false, "City '" ++ city ++ "' not supported. Using Bangalore instead.", "Bangalore")
  else
    (true, "", city)

/-- A Python value that can reach the budget field: an integer, a string,
or `None` (the loosely typed extractor output). -/
inductive PyVal where
  | int (n : Int)
  | str (s : String)
  | noneV
deriving DecidableEq

/-- Digit run with single underscores between digits, as Python's `int`
accepts after the optional sign. -/
def noDoubleUnderscore : List Char → Bool
  | c1 :: c2 :: rest => !(c1 == '_' && c2 == '_') && noDoubleUnderscore (c2 :: rest)
  | _ => true

/-- Body of a Python integer literal string: nonempty, digits and
underscores only, first and last characters digits, no `__`. -/
def digitsUS (l : List Char) : Bool :=
  !l.isEmpty && l.all (fun c => isDigitC c || c == '_') &&
    isDigitC (l.headD '_') && isDigitC (l.getLastD '_') && noDoubleUnderscore l

/-- Numeric value of a digit run with underscores. -/
def valUS (l : List Char) : Nat :=
  natOfDigits (l.filter (fun c => !(c == '_')))

/-- Python `int(s)` on a string: strip whitespace, optional sign, digits
(underscore separators allowed); `Option.none` is `ValueError`. -/
def pyStrToInt (s : String) : Option Int :=
  match pyStrip s.toList with
  | '+' :: rest => if digitsUS rest then some (Int.ofNat (valUS rest)) else Option.none
  | '-' :: rest => if digitsUS rest then some (-(Int.ofNat (valUS rest))) else Option.none
  | t => if digitsUS t then some (Int.ofNat (valUS t)) else Option.none

/-- `int(budget)`: identity on integers, string parsing on strings,
`TypeError` (`Option.none`) on `None`. -/
def pyToInt : PyVal → Option Int
  | .int n => some n
  | .str s => pyStrToInt s
  | .noneV => Option.none

/-- `InputValidator.MIN_BUDGET`. -/
def MIN_BUDGET : Int := 500

/-- `InputValidator.MAX_BUDGET`. -/
def MAX_BUDGET : Int := 50000

/-- `InputValidator._validate_budget`. -/
def _validate_budget (b : PyVal) : Bool × String × Int :=
  match pyToInt b with
  | Option.none => (false, "Invalid budget. Using default ₹2000.", 2000)
  | some budget =>
    if budget < MIN_BUDGET then
      (false, "Budget too low (minimum ₹500). Adjusted to ₹500.", MIN_BUDGET)
    else if budget > MAX_BUDGET then
      (false, "Budget too high (maximum ₹50000). Adjusted to ₹50000.", MAX_BUDGET)
    else
      (true, "", budget)

/-- The `valid_types` vocabulary of `_validate_date_type`. -/
def valid_types : List String :=
  ["romantic", "casual", "cozy", "budget", "budget-friendly", "formal", "fun"]

/-- `InputValidator._validate_date_type`. -/
def _validate_date_type (date_type : String) : Bool × String × String :=
  let date_type_lower := strOf (pyNorm date_type)
  if date_type_lower == "" then
    (false, "Date type not specified. Using 'casual'.", "casual")
  else if !(valid_types.contains date_type_lower) then
    (true, "", date_type)
  else
    (true, "", date_type)

/-- The incoming plan dictionary: each validated key may be absent
(`plan.get` supplies the seed), the city, timing and date-type values are
strings, the budget value is any `PyVal`. -/
structure CandidatePlan where
  city : Option String
  budget : Option PyVal
  timing : Option String
  date_type : Option String
deriving DecidableEq

/-- The corrected plan's validated scalar fields. -/
structure ValidatedPlan where
  city : String
  budget : Int
  timing : String
  date_type : String
deriving DecidableEq

/-- Re-submitting a corrected plan: each field becomes a present value of
the candidate shape (the corrected budget is an `int`). -/
def liftPlan (v : ValidatedPlan) : CandidatePlan :=
  ⟨some v.city, some (.int v.budget), some v.timing, some v.date_type⟩

/-- `InputValidator.validate_plan`. -/
def validate_plan (cur : SimpleDate) (plan : CandidatePlan) :
    Bool × String × ValidatedPlan :=
  let c := _validate_city (plan.city.getD "")
  let b := _validate_budget (plan.budget.getD (.int 0))
  let t := _validate_date_time cur (plan.timing.getD "today")
  let dt := _validate_date_type (plan.date_type.getD "")
  let errors :=
    (if c.1 then [] else [c.2.1]) ++ (if b.1 then [] else [b.2.1]) ++
    (if t.1 then [] else [t.2.1]) ++ (if dt.1 then [] else [dt.2.1])
  let corrected : ValidatedPlan := ⟨c.2.2, b.2.2, t.2.2, dt.2.2⟩
  if errors.isEmpty then (true, "", corrected)
  else (false, String.intercalate " | " errors, corrected)

/-- C1: `all_valid` is false exactly when at least one of the four field
validators flagged a correction, and the diagnostic string is the
per-field correction messages joined with " | " in the fixed order
city, budget, timing, date_type. -/
theorem validate_plan_assembly (cur : SimpleDate) (plan : CandidatePlan) :
    ((validate_plan cur plan).1 = false ↔
      ¬((_validate_city (plan.city.getD "")).1 = true ∧
        (_validate_budget (plan.budget.getD (.int 0))).1 = true ∧
        (_validate_date_time cur (plan.timing.getD "today")).1 = true ∧
        (_validate_date_type (plan.date_type.getD "")).1 = true)) ∧
    (validate_plan cur plan).2.1 = String.intercalate " | "
      ((if (_validate_city (plan.city.getD "")).1 then []
        else [(_validate_city (plan.city.getD "")).2.1]) ++
       (if (_validate_budget (plan.budget.getD (.int 0))).1 then []
        else [(_validate_budget (plan.budget.getD (.int 0))).2.1]) ++
       (if (_validate_date_time cur (plan.timing.getD "today")).1 then []
        else [(_validate_date_time cur (plan.timing.getD "today")).2.1]) ++
       (if (_validate_date_type (plan.date_type.getD "")).1 then []
        else [(_validate_date_type (plan.date_type.getD "")).2.1])) := by
  simp only [validate_plan]
  rcases hc : _validate_city (plan.city.getD "") with ⟨cv, ce, cc⟩
  rcases hb : _validate_budget (plan.budget.getD (.int 0)) with ⟨bv, be, bc⟩
  rcases ht : _validate_date_time cur (plan.timing.getD "today") with ⟨tv, te, tc⟩
  rcases hd : _validate_date_type (plan.date_type.getD "") with ⟨dv, de, dc⟩
  cases cv <;> cases bv <;> cases tv <;> cases dv <;>
    simp [String.intercalate]

/-- C5: the budget validator substitutes the default 2000 on a
non-coercible input, clamps coercible values to [500, 50000] with the
corresponding messages, and passes in-range values through unchanged. -/
theorem budget_validation_rules (b : PyVal) :
    (pyToInt b = Option.none →
      _validate_budget b = (false, "Invalid budget. Using default ₹2000.", 2000)) ∧
    (∀ n : Int, pyToInt b = some n → n < 500 →
      _validate_budget b = (false, "Budget too low (minimum ₹500). Adjusted to ₹500.", 500)) ∧
    (∀ n : Int, pyToInt b = some n → 50000 < n →
      _validate_budget b = (false, "Budget too high (maximum ₹50000). Adjusted to ₹50000.", 50000)) ∧
    (∀ n : Int, pyToInt b = some n → 500 ≤ n → n ≤ 50000 →
      _validate_budget b = (true, "", n)) := by
  unfold _validate_budget MIN_BUDGET MAX_BUDGET
  cases h : pyToInt b with
  | none => simp
  | some n =>
    refine ⟨by simp, ?_, ?_, ?_⟩ <;> intro m hm <;>
      rw [Option.some.injEq] at hm <;> subst hm
    · intro hlt; simp [hlt]
    · intro hgt
      have k1 : ¬(n < 500) := by omega
      simp [k1, hgt]
    · intro h1 h2
      have k1 : ¬(n < 500) := by omega
      have k2 : ¬(n > 50000) := by omega
      simp [k1, k2]

/-- Witness for C5 at the spec's own example inputs. -/
theorem budget_validation_rules_witness :
    _validate_budget (.str "abc") = (false, "Invalid budget. Using default ₹2000.", 2000) ∧
    _validate_budget (.int 100) = (false, "Budget too low (minimum ₹500). Adjusted to ₹500.", 500) ∧
    _validate_budget (.int 999999) = (false, "Budget too high (maximum ₹50000). Adjusted to ₹50000.", 50000) ∧
    _validate_budget (.int 1500) = (true, "", 1500) :=
  ⟨(budget_validation_rules (.str "abc")).1 (by decide),
   (budget_validation_rules (.int 100)).2.1 100 rfl (by decide),
   (budget_validation_rules (.int 999999)).2.2.1 999999 rfl (by decide),
   (budget_validation_rules (.int 1500)).2.2.2 1500 rfl (by decide) (by decide)⟩

/-- C6: the city validator substitutes "Bangalore" for an empty
normalized input with message "City not specified", substitutes the same
default for an unrecognized city with a message naming the rejected
value, and passes a recognized city through with its casing intact. -/
theorem city_validation_rules (city : String) :
    (strOf (pyNorm city) = "" →
      _validate_city city = (false, "City not specified", "Bangalore")) ∧
    (strOf (pyNorm city) ≠ "" →
      SUPPORTED_CITIES.contains (strOf (pyNorm city)) = false →
      _validate_city city =
        (false, "City '" ++ city ++ "' not supported. Using Bangalore instead.", "Bangalore")) ∧
    (SUPPORTED_CITIES.contains (strOf (pyNorm city)) = true →
      _validate_city city = (true, "", city)) := by
  refine ⟨?_, ?_, ?_⟩
  · intro h; unfold _validate_city; simp [h]
  · intro h1 h2
    have h2' : strOf (pyNorm city) ∉ SUPPORTED_CITIES := by simpa using h2
    unfold _validate_city; simp [h1, h2']
  · intro h
    have hne : strOf (pyNorm city) ≠ "" := by
      intro he; rw [he] at h; exact absurd h (by decide)
    have h' : strOf (pyNorm city) ∈ SUPPORTED_CITIES := by simpa using h
    unfold _validate_city; simp [hne, h']

/-- Witness for C6 at the spec's example inputs. -/
theorem city_validation_rules_witness :
    _validate_city "" = (false, "City not specified", "Bangalore") ∧
    _validate_city "Atlantis" =
      (false, "City 'Atlantis' not supported. Using Bangalore instead.", "Bangalore") ∧
    _validate_city "Mumbai" = (true, "", "Mumbai") :=
  ⟨(city_validation_rules "").1 (by decide),
   (city_validation_rules "Atlantis").2.1 (by decide) (by decide),
   (city_validation_rules "Mumbai").2.2 (by decide)⟩

/-- C7: the date-type validator substitutes "casual" for an empty
normalized input with a message, and accepts every non-empty input
unchanged with no message, whether or not it is in the vocabulary. -/
theorem date_type_validation_rules (dt : String) :
    (strOf (pyNorm dt) = "" →
      _validate_date_type dt = (false, "Date type not specified. Using 'casual'.", "casual")) ∧
    (strOf (pyNorm dt) ≠ "" → _validate_date_type dt = (true, "", dt)) := by
  constructor
  · intro h; unfold _validate_date_type; simp [h]
  · intro h; unfold _validate_date_type; simp [h]

/-- Witness for C7: empty and unknown ("surprise") date types. -/
theorem date_type_validation_rules_witness :
    _validate_date_type "" = (false, "Date type not specified. Using 'casual'.", "casual") ∧
    _validate_date_type "surprise" = (true, "", "surprise") :=
  ⟨(date_type_validation_rules "").1 (by decide),
   (date_type_validation_rules "surprise").2 (by decide)⟩

/-- C10: absent keys are seeded before validation: missing city becomes
"" (corrected to "Bangalore"), missing budget becomes the integer 0 and
is clamped to 500 with the too-low message (not replaced by 2000),
missing timing becomes "today" (valid, no message), missing date_type
becomes "" (corrected to "casual"); in particular a plan without a
budget key never comes back fully valid. -/
theorem missing_keys_defaults (cur : SimpleDate) :
    validate_plan cur ⟨Option.none, Option.none, Option.none, Option.none⟩ =
      (false,
       "City not specified | Budget too low (minimum ₹500). Adjusted to ₹500. | Date type not specified. Using 'casual'.",
       ⟨"Bangalore", 500, "today", "casual"⟩) ∧
    (∀ plan : CandidatePlan, plan.budget = Option.none →
      (validate_plan cur plan).1 = false ∧
      (validate_plan cur plan).2.2.budget = 500) := by
  constructor
  · rfl
  · intro plan hb
    simp only [validate_plan, hb]
    rcases hc : _validate_city (plan.city.getD "") with ⟨cv, ce, cc⟩
    rcases ht : _validate_date_time cur (plan.timing.getD "today") with ⟨tv, te, tc⟩
    rcases hd : _validate_date_type (plan.date_type.getD "") with ⟨dv, de, dc⟩
    have hbv : _validate_budget ((Option.none : Option PyVal).getD (.int 0)) =
        (false, "Budget too low (minimum ₹500). Adjusted to ₹500.", 500) := by decide
    rw [hbv]
    cases cv <;> cases tv <;> cases dv <;> simp

/-- Well-formedness of every date the parser can produce: month and day
within their strptime ranges and the day existing in the month. -/
def DateOk (d : SimpleDate) : Prop :=
  1 ≤ d.month ∧ d.month ≤ 12 ∧ 1 ≤ d.day ∧ d.day ≤ 31 ∧
    d.day ≤ daysInMonth d.year d.month

theorem strpDayMonth_ok (full : Bool) (dv m : Nat) (d : SimpleDate)
    (h : strpDayMonth full dv m = some d) : DateOk d := by
  unfold strpDayMonth at h
  split at h
  · rename_i hg
    rw [Option.some.injEq] at h
    subst h
    exact ⟨hg.1, hg.2.1, hg.2.2.1, hg.2.2.2.1, hg.2.2.2.2.1⟩
  · exact absurd h (by simp)

theorem strpDMY_ok (dv mv yv : Nat) (d : SimpleDate)
    (h : strpDMY dv mv yv = some d) : DateOk d := by
  unfold strpDMY at h
  split at h
  · rename_i hg
    rw [Option.some.injEq] at h
    subst h
    exact ⟨hg.2.2.1, hg.2.2.2.1, hg.1, hg.2.1, hg.2.2.2.2.2⟩
  · exact absurd h (by simp)

theorem replaceYear_ok (d : SimpleDate) (y : Nat) (d' : SimpleDate)
    (hok : DateOk d) (h : replaceYear d y = some d') : DateOk d' := by
  unfold replaceYear at h
  split at h
  · rename_i hg
    rw [Option.some.injEq] at h
    subst h
    exact ⟨hok.1, hok.2.1, hok.2.2.1, hok.2.2.2.1, hg⟩
  · exact absurd h (by simp)

theorem fixYear_ok (cur : SimpleDate) (d d' : SimpleDate)
    (hok : DateOk d) (h : fixYear cur d = some d') : DateOk d' := by
  unfold fixYear at h
  split at h
  · exact replaceYear_ok d cur.year d' hok h
  · rw [Option.some.injEq] at h; subst h; exact hok

theorem pA_ok (cur : SimpleDate) (tl : List Char) (d : SimpleDate)
    (h : pA cur tl = some d) : DateOk d := by
  unfold pA at h
  rw [Option.bind_eq_some] at h
  obtain ⟨p, _, h2⟩ := h
  rw [Option.bind_eq_some] at h2
  obtain ⟨d0, hs, hf⟩ := h2
  exact fixYear_ok cur d0 d (strpDayMonth_ok false p.1 p.2 d0 hs) hf

theorem pB_ok (cur : SimpleDate) (tl : List Char) (d : SimpleDate)
    (h : pB cur tl = some d) : DateOk d := by
  unfold pB at h
  rw [Option.bind_eq_some] at h
  obtain ⟨p, _, h2⟩ := h
  rw [Option.bind_eq_some] at h2
  obtain ⟨d0, hs, hf⟩ := h2
  exact fixYear_ok cur d0 d (strpDayMonth_ok true p.1 p.2 d0 hs) hf

theorem pC_ok (cur : SimpleDate) (tl : List Char) (d : SimpleDate)
    (h : pC cur tl = some d) : DateOk d := by
  unfold pC at h
  rw [Option.bind_eq_some] at h
  obtain ⟨p, _, h2⟩ := h
  rw [Option.bind_eq_some] at h2
  obtain ⟨d0, hs, hf⟩ := h2
  exact fixYear_ok cur d0 d (strpDMY_ok p.1 p.2.1 p.2.2 d0 hs) hf

theorem pD_ok (cur : SimpleDate) (tl : List Char) (d : SimpleDate)
    (h : pD cur tl = some d) : DateOk d := by
  unfold pD at h
  rw [Option.bind_eq_some] at h
  obtain ⟨p, _, h2⟩ := h
  rw [Option.bind_eq_some] at h2
  obtain ⟨d0, hs, hf⟩ := h2
  exact fixYear_ok cur d0 d (strpDMY_ok p.2.2 p.2.1 p.1 d0 hs) hf

theorem patternList_ok (cur : SimpleDate) :
    ∀ p ∈ patternList cur, ∀ tl d, p tl = some d → DateOk d := by
  intro p hp tl d
  simp only [patternList, List.mem_cons, List.mem_singleton, List.not_mem_nil,
    or_false] at hp
  rcases hp with rfl | rfl | rfl | rfl
  · exact pA_ok cur tl d
  · exact pB_ok cur tl d
  · exact pC_ok cur tl d
  · exact pD_ok cur tl d

theorem firstParse_mem_ok :
    ∀ (ps : List (List Char → Option SimpleDate)) (tl : List Char) (d : SimpleDate),
      (∀ p ∈ ps, ∀ tl d', p tl = some d' → DateOk d') →
      firstParse ps tl = some d → DateOk d := by
  intro ps
  induction ps with
  | nil => intro tl d _ h; simp [firstParse] at h
  | cons p ps ih =>
    intro tl d hall h
    unfold firstParse at h
    cases hp : p tl with
    | some d' =>
      rw [hp] at h
      simp only [Option.some.injEq] at h
      subst h
      exact hall p (List.mem_cons_self p ps) tl d' hp
    | none =>
      rw [hp] at h
      exact ih tl d (fun q hq => hall q (List.mem_cons_of_mem p hq)) h

/-- When no keyword fires, the timing validator is the pattern loop. -/
theorem vdt_not_keyword (cur : SimpleDate) (timing : String)
    (h : isKeyword (pyNorm timing) = false) :
    _validate_date_time cur timing =
      loopPatterns cur timing (patternList cur) (pyNorm timing) := by
  unfold isKeyword at h
  simp only [Bool.or_eq_false_iff] at h
  obtain ⟨⟨⟨⟨⟨h1, h2⟩, h3⟩, h4⟩, h5⟩, h6⟩ := h
  simp at h1 h2 h3 h4
  simp only [String.toList] at h5 h6
  unfold _validate_date_time
  simp [h1, h2, h3, h4, h5, h6]

theorem extractDate_eq (cur : SimpleDate) (timing : String) (d : SimpleDate)
    (h : extractDate cur timing = some d) :
    isKeyword (pyNorm timing) = false ∧
      firstParse (patternList cur) (pyNorm timing) = some d := by
  simp only [extractDate] at h
  cases hk : isKeyword (pyNorm timing) with
  | true => rw [hk] at h; simp at h
  | false => rw [hk] at h; simp at h; exact ⟨rfl, h⟩

theorem loop_of_firstParse (cur : SimpleDate) (timing : String) (d : SimpleDate)
    (r : Bool × String × String) :
    ∀ (ps : List (List Char → Option SimpleDate)) (tl : List Char),
      firstParse ps tl = some d → finishDate cur timing d = some r →
      loopPatterns cur timing ps tl = r := by
  intro ps
  induction ps with
  | nil => intro tl h _; simp [firstParse] at h
  | cons p ps ih =>
    intro tl h hf
    unfold firstParse at h
    unfold loopPatterns
    cases hp : p tl with
    | some d' =>
      rw [hp] at h
      simp only [Option.some.injEq] at h
      subst h
      simp only [hf]
    | none =>
      rw [hp] at h
      exact ih tl h hf

theorem loop_of_firstParse_none (cur : SimpleDate) (timing : String) :
    ∀ (ps : List (List Char → Option SimpleDate)) (tl : List Char),
      firstParse ps tl = Option.none →
      loopPatterns cur timing ps tl = (true, "", timing) := by
  intro ps
  induction ps with
  | nil => intro tl _; rfl
  | cons p ps ih =>
    intro tl h
    unfold firstParse at h
    unfold loopPatterns
    cases hp : p tl with
    | some d' => rw [hp] at h; exact absurd h (by simp)
    | none => rw [hp] at h; exact ih tl h

theorem daysInMonth_ne_two (y y' m : Nat) (h : m ≠ 2) :
    daysInMonth y m = daysInMonth y' m := by
  unfold daysInMonth
  have hb : (m == 2) = false := by simp [h]
  rw [hb]
  simp

theorem daysInMonth_two_bounds (y : Nat) :
    28 ≤ daysInMonth y 2 ∧ daysInMonth y 2 ≤ 29 := by
  unfold daysInMonth
  cases isLeap y <;> simp


/-- C2 counterexample: with current date 2024-06-15 the timing
"29/02/2024" resolves to 2024-02-29, which is strictly before the
current date and in a strictly earlier month, yet the validator does NOT
reinterpret it as next year with an adjustment message: the rollover
`replace(year=2025)` raises (Feb 29 does not exist in 2025), the
exception is swallowed by the pattern loop, no later pattern matches,
and the string is accepted unchanged with no message. -/
theorem timing_rollover_counterexample :
    extractDate ⟨2024, 6, 15⟩ "29/02/2024" = some ⟨2024, 2, 29⟩ ∧
    dateLtB ⟨2024, 2, 29⟩ ⟨2024, 6, 15⟩ = true ∧
    (2 : Nat) < 6 ∧
    _validate_date_time ⟨2024, 6, 15⟩ "29/02/2024" = (true, "", "29/02/2024") :=
  ⟨rfl, rfl, by omega, rfl⟩

/-- C2 (amended): for every timing whose extracted resolved date is
strictly before the current date with a strictly earlier month, the
validator reinterprets the date with the year after the current year,
accepts, emits the adjustment message, and the corrected timing names
the new resolved date — unless the date is February 29 and the year
after the current year is not a leap year, in which case the rollover
`replace` raises internally and the validator falls through to the
remaining patterns instead.  (A February 29 whose successor target year
IS leap rolls over normally, e.g. to February 29, 2028.) -/
theorem timing_next_year_rollover (cur : SimpleDate) (timing : String) (d : SimpleDate)
    (hex : extractDate cur timing = some d)
    (hpast : dateLtB d cur = true)
    (hmon : d.month < cur.month)
    (hfeb : ¬(d.month = 2 ∧ d.day = 29 ∧ isLeap (cur.year + 1) = false)) :
    _validate_date_time cur timing =
      (true,
       "⚠️ Date adjusted to " ++ fmtBdY ⟨cur.year + 1, d.month, d.day⟩ ++ " (next year)",
       fmtMD d.month d.day) := by
  obtain ⟨hk, hfp⟩ := extractDate_eq cur timing d hex
  have hok : DateOk d :=
    firstParse_mem_ok (patternList cur) (pyNorm timing) d (patternList_ok cur) hfp
  have hday : d.day ≤ daysInMonth (cur.year + 1) d.month := by
    obtain ⟨hm1, hm2, hd1, hd2, hdm⟩ := hok
    by_cases h2 : d.month = 2
    · rw [h2] at hdm
      rw [h2]
      by_cases hl : isLeap (cur.year + 1) = true
      · have h29 : daysInMonth (cur.year + 1) 2 = 29 := by
          unfold daysInMonth; simp [hl]
        have hb1 := daysInMonth_two_bounds d.year
        omega
      · have hb1 := daysInMonth_two_bounds d.year
        have hb2 := daysInMonth_two_bounds (cur.year + 1)
        have hne : d.day ≠ 29 := fun hdd => hfeb ⟨h2, hdd, by simpa using hl⟩
        omega
    · rw [daysInMonth_ne_two (cur.year + 1) d.year d.month h2]
      exact hdm
  have hrep : replaceYear d (cur.year + 1) = some ⟨cur.year + 1, d.month, d.day⟩ := by
    unfold replaceYear; rw [if_pos hday]
  have hfin : finishDate cur timing d =
      some (true,
            "⚠️ Date adjusted to " ++ fmtBdY ⟨cur.year + 1, d.month, d.day⟩ ++ " (next year)",
            fmtMD d.month d.day) := by
    unfold finishDate
    simp [hpast, hmon, hrep]
  rw [vdt_not_keyword cur timing hk]
  exact loop_of_firstParse cur timing d _ (patternList cur) (pyNorm timing) hfp hfin

/-- Witness for the amended C2: the spec's example (current date
2024-06-15, "10th January" rolls to January 10, 2025) and the boundary
case the exclusion does NOT cover (current date 2027-06-15, the leap-day
"29/02/2024" rolls to February 29 of the leap year 2028). -/
theorem timing_next_year_rollover_witness :
    (extractDate ⟨2024, 6, 15⟩ "10th January" = some ⟨2024, 1, 10⟩ ∧
     dateLtB ⟨2024, 1, 10⟩ ⟨2024, 6, 15⟩ = true ∧
     _validate_date_time ⟨2024, 6, 15⟩ "10th January" =
       (true, "⚠️ Date adjusted to January 10, 2025 (next year)", "January 10")) ∧
    (extractDate ⟨2027, 6, 15⟩ "29/02/2024" = some ⟨2024, 2, 29⟩ ∧
     dateLtB ⟨2024, 2, 29⟩ ⟨2027, 6, 15⟩ = true ∧
     _validate_date_time ⟨2027, 6, 15⟩ "29/02/2024" =
       (true, "⚠️ Date adjusted to February 29, 2028 (next year)", "February 29")) :=
  ⟨⟨rfl, rfl,
    timing_next_year_rollover ⟨2024, 6, 15⟩ "10th January" ⟨2024, 1, 10⟩ rfl rfl
      (by decide) (by decide)⟩,
   ⟨rfl, rfl,
    timing_next_year_rollover ⟨2027, 6, 15⟩ "29/02/2024" ⟨2024, 2, 29⟩ rfl rfl
      (by decide) (by decide)⟩⟩

/-- C3: a timing whose extracted resolved date is strictly before the
current date but whose month is not strictly earlier than the current
month is rejected: the field is invalid, the corrected timing is the
literal "today", and the message states the phrase is in the past. -/
theorem timing_past_date_rejection (cur : SimpleDate) (timing : String) (d : SimpleDate)
    (hex : extractDate cur timing = some d)
    (hpast : dateLtB d cur = true)
    (hmon : cur.month ≤ d.month) :
    _validate_date_time cur timing =
      (false, "❌ Date '" ++ timing ++ "' is in the past. Please choose a future date.",
       "today") := by
  obtain ⟨hk, hfp⟩ := extractDate_eq cur timing d hex
  have hfin : finishDate cur timing d =
      some (false, "❌ Date '" ++ timing ++ "' is in the past. Please choose a future date.",
            "today") := by
    unfold finishDate
    have hnm : ¬(d.month < cur.month) := by omega
    simp [hpast, hnm]
  rw [vdt_not_keyword cur timing hk]
  exact loop_of_firstParse cur timing d _ (patternList cur) (pyNorm timing) hfp hfin

/-- Witness for C3 at the spec's example: current date 2024-06-15,
timing "10th June" is rejected and corrected to "today". -/
theorem timing_past_date_rejection_witness :
    extractDate ⟨2024, 6, 15⟩ "10th June" = some ⟨2024, 6, 10⟩ ∧
    dateLtB ⟨2024, 6, 10⟩ ⟨2024, 6, 15⟩ = true ∧
    _validate_date_time ⟨2024, 6, 15⟩ "10th June" =
      (false, "❌ Date '10th June' is in the past. Please choose a future date.", "today") :=
  ⟨rfl, rfl,
   timing_past_date_rejection ⟨2024, 6, 15⟩ "10th June" ⟨2024, 6, 10⟩ rfl rfl (by decide)⟩

/-- C8: a timing that is not a recognized relative keyword and from
which no pattern extracts a parseable date is accepted unchanged, valid,
with no message (fail open). -/
theorem timing_fail_open (cur : SimpleDate) (timing : String)
    (hkw : isKeyword (pyNorm timing) = false)
    (hnp : firstParse (patternList cur) (pyNorm timing) = Option.none) :
    _validate_date_time cur timing = (true, "", timing) := by
  rw [vdt_not_keyword cur timing hkw]
  exact loop_of_firstParse_none cur timing (patternList cur) (pyNorm timing) hnp

/-- Witness for C8: "next week" is neither a keyword nor parseable. -/
theorem timing_fail_open_witness :
    isKeyword (pyNorm "next week") = false ∧
    firstParse (patternList ⟨2024, 6, 15⟩) (pyNorm "next week") = Option.none ∧
    _validate_date_time ⟨2024, 6, 15⟩ "next week" = (true, "", "next week") :=
  ⟨rfl, rfl, timing_fail_open ⟨2024, 6, 15⟩ "next week" rfl rfl⟩

set_option maxRecDepth 40000

/-- The timing strings produced by the rollover branch
(`strftime('%B %d')`) are themselves neither keywords nor matched by any
of the four date patterns (their digits are at the end, with no month
name after them), checked for every month number and day. -/
theorem fmtMD_no_parse : ∀ m : Fin 13, ∀ day : Fin 32,
    isKeyword (pyNorm (fmtMD m.val day.val)) = false ∧
    searchList (matchDM monthAbbrevs) (pyNorm (fmtMD m.val day.val)) = Option.none ∧
    searchList (matchDM monthFulls) (pyNorm (fmtMD m.val day.val)) = Option.none ∧
    searchList matchDMY (pyNorm (fmtMD m.val day.val)) = Option.none ∧
    searchList matchYMD (pyNorm (fmtMD m.val day.val)) = Option.none := by decide

theorem pA_none (cur : SimpleDate) (tl : List Char)
    (h : searchList (matchDM monthAbbrevs) tl = Option.none) :
    pA cur tl = Option.none := by
  unfold pA; rw [h]; rfl

theorem pB_none (cur : SimpleDate) (tl : List Char)
    (h : searchList (matchDM monthFulls) tl = Option.none) :
    pB cur tl = Option.none := by
  unfold pB; rw [h]; rfl

theorem pC_none (cur : SimpleDate) (tl : List Char)
    (h : searchList matchDMY tl = Option.none) :
    pC cur tl = Option.none := by
  unfold pC; rw [h]; rfl

theorem pD_none (cur : SimpleDate) (tl : List Char)
    (h : searchList matchYMD tl = Option.none) :
    pD cur tl = Option.none := by
  unfold pD; rw [h]; rfl

/-- Re-validating a rollover-produced timing accepts it unchanged by the
fail-open branch. -/
theorem vdt_fmtMD (cur : SimpleDate) (m day : Nat) (hm : m < 13) (hd : day < 32) :
    _validate_date_time cur (fmtMD m day) = (true, "", fmtMD m day) := by
  obtain ⟨hk, hA, hB, hC, hD⟩ := fmtMD_no_parse ⟨m, hm⟩ ⟨day, hd⟩
  rw [vdt_not_keyword cur (fmtMD m day) hk]
  apply loop_of_firstParse_none
  have h1 := pA_none cur (pyNorm (fmtMD m day)) hA
  have h2 := pB_none cur (pyNorm (fmtMD m day)) hB
  have h3 := pC_none cur (pyNorm (fmtMD m day)) hC
  have h4 := pD_none cur (pyNorm (fmtMD m day)) hD
  simp [patternList, firstParse, h1, h2, h3, h4]

/-- The four possible results of the guardrail step on a parsed date. -/
theorem finishDate_cases (cur : SimpleDate) (t : String) (d : SimpleDate) :
    finishDate cur t d = Option.none ∨
    finishDate cur t d = some (true, "", t) ∨
    finishDate cur t d =
      some (false, "❌ Date '" ++ t ++ "' is in the past. Please choose a future date.",
            "today") ∨
    finishDate cur t d =
      some (true,
            "⚠️ Date adjusted to " ++ fmtBdY ⟨cur.year + 1, d.month, d.day⟩ ++ " (next year)",
            fmtMD d.month d.day) := by
  unfold finishDate
  by_cases hlt : dateLtB d cur = true
  · by_cases hm : d.month < cur.month
    · cases hr : replaceYear d (cur.year + 1) with
      | none => left; simp [hlt, hm, hr]
      | some r =>
        right; right; right
        have hre : r = ⟨cur.year + 1, d.month, d.day⟩ := by
          unfold replaceYear at hr
          split at hr
          · simp only [Option.some.injEq] at hr; exact hr.symm
          · simp at hr
        subst hre
        simp [hlt, hm, hr]
    · right; right; left; simp [hlt, hm]
  · right; left
    simp only [Bool.not_eq_true] at hlt
    simp [hlt]

/-- Result shape of the pattern loop, for well-formed patterns. -/
theorem loop_cases (cur : SimpleDate) (t : String) :
    ∀ (ps : List (List Char → Option SimpleDate)) (tl : List Char),
      (∀ p ∈ ps, ∀ tl d, p tl = some d → DateOk d) →
      (loopPatterns cur t ps tl = (true, "", t) ∨
       loopPatterns cur t ps tl =
         (false, "❌ Date '" ++ t ++ "' is in the past. Please choose a future date.",
          "today") ∨
       ∃ m day, m ≤ 12 ∧ day ≤ 31 ∧
         loopPatterns cur t ps tl =
           (true,
            "⚠️ Date adjusted to " ++ fmtBdY ⟨cur.year + 1, m, day⟩ ++ " (next year)",
            fmtMD m day)) := by
  intro ps
  induction ps with
  | nil => intro tl _; left; rfl
  | cons p ps ih =>
    intro tl hall
    have htail := fun q hq => hall q (List.mem_cons_of_mem p hq)
    unfold loopPatterns
    cases hp : p tl with
    | none => exact ih tl htail
    | some d =>
      have hok := hall p (List.mem_cons_self p ps) tl d hp
      rcases finishDate_cases cur t d with hf | hf | hf | hf
      · simp only [hf]
        exact ih tl htail
      · simp [hf]
      · simp [hf]
      · right; right
        refine ⟨d.month, d.day, hok.2.1, hok.2.2.2.1, ?_⟩
        simp [hf]

/-- Result shape of the full timing validator. -/
theorem vdt_cases (cur : SimpleDate) (t : String) :
    _validate_date_time cur t = (true, "", t) ∨
    _validate_date_time cur t =
      (false, "❌ Date '" ++ t ++ "' is in the past. Please choose a future date.", "today") ∨
    ∃ m day, m ≤ 12 ∧ day ≤ 31 ∧
      _validate_date_time cur t =
        (true,
         "⚠️ Date adjusted to " ++ fmtBdY ⟨cur.year + 1, m, day⟩ ++ " (next year)",
         fmtMD m day) := by
  cases hk : isKeyword (pyNorm t) with
  | false =>
    rw [vdt_not_keyword cur t hk]
    exact loop_cases cur t (patternList cur) (pyNorm t) (patternList_ok cur)
  | true =>
    left
    unfold isKeyword at hk
    simp only [Bool.or_eq_true] at hk
    unfold _validate_date_time
    rcases hk with ((((k1 | k2) | k3) | k4) | k5) | k6 <;> simp_all

/-- Re-validating the corrected timing always accepts it unchanged. -/
theorem vdt_idem (cur : SimpleDate) (t : String) :
    _validate_date_time cur ((_validate_date_time cur t).2.2) =
      (true, "", (_validate_date_time cur t).2.2) := by
  rcases vdt_cases cur t with h | h | ⟨m, day, hm, hd, h⟩
  · rw [h]; exact h
  · rw [h]; rfl
  · rw [h]; exact vdt_fmtMD cur m day (by omega) (by omega)

/-- Re-validating the corrected city always accepts it unchanged. -/
theorem city_idem (c : String) :
    _validate_city ((_validate_city c).2.2) = (true, "", (_validate_city c).2.2) := by
  by_cases h1 : strOf (pyNorm c) = ""
  · have hr : _validate_city c = (false, "City not specified", "Bangalore") := by
      unfold _validate_city; simp [h1]
    rw [hr]; decide
  · by_cases h2 : strOf (pyNorm c) ∈ SUPPORTED_CITIES
    · have hr : _validate_city c = (true, "", c) := by
        unfold _validate_city; simp [h1, h2]
      rw [hr]
      unfold _validate_city; simp [h1, h2]
    · have hr : _validate_city c =
          (false, "City '" ++ c ++ "' not supported. Using Bangalore instead.", "Bangalore") := by
        unfold _validate_city; simp [h1, h2]
      rw [hr]
      show _validate_city "Bangalore" = (true, "", "Bangalore")
      decide

/-- The corrected budget always lies in the configured range. -/
theorem budget_corrected_range (b : PyVal) :
    500 ≤ (_validate_budget b).2.2 ∧ (_validate_budget b).2.2 ≤ 50000 := by
  unfold _validate_budget MIN_BUDGET MAX_BUDGET
  cases pyToInt b with
  | none => simp
  | some n =>
    by_cases k1 : n < 500
    · simp [k1]
    · by_cases k2 : n > 50000
      · simp [k1, k2]
      · simp [k1, k2]; omega

/-- An in-range integer budget passes through unchanged and valid. -/
theorem budget_valid_int (n : Int) (h1 : 500 ≤ n) (h2 : n ≤ 50000) :
    _validate_budget (.int n) = (true, "", n) := by
  unfold _validate_budget pyToInt MIN_BUDGET MAX_BUDGET
  have k1 : ¬(n < 500) := by omega
  have k2 : ¬(n > 50000) := by omega
  simp [k1, k2]

/-- Re-validating the corrected budget always accepts it unchanged. -/
theorem budget_idem (b : PyVal) :
    _validate_budget (.int ((_validate_budget b).2.2)) =
      (true, "", (_validate_budget b).2.2) :=
  budget_valid_int _ (budget_corrected_range b).1 (budget_corrected_range b).2

/-- Re-validating the corrected date type always accepts it unchanged. -/
theorem dtype_idem (s : String) :
    _validate_date_type ((_validate_date_type s).2.2) =
      (true, "", (_validate_date_type s).2.2) := by
  by_cases h : strOf (pyNorm s) = ""
  · have hr : _validate_date_type s =
        (false, "Date type not specified. Using 'casual'.", "casual") := by
      unfold _validate_date_type; simp [h]
    rw [hr]; decide
  · have hr : _validate_date_type s = (true, "", s) := by
      unfold _validate_date_type; simp [h]
    rw [hr]
    unfold _validate_date_type; simp [h]

/-- The corrected plan of `validate_plan` is built from the four field
validators' corrected values, whether or not errors occurred. -/
theorem validate_plan_corrected (cur : SimpleDate) (plan : CandidatePlan) :
    (validate_plan cur plan).2.2 =
      ⟨(_validate_city (plan.city.getD "")).2.2,
       (_validate_budget (plan.budget.getD (.int 0))).2.2,
       (_validate_date_time cur (plan.timing.getD "today")).2.2,
       (_validate_date_type (plan.date_type.getD "")).2.2⟩ := by
  simp only [validate_plan]
  rcases hc : _validate_city (plan.city.getD "") with ⟨cv, ce, cc⟩
  rcases hb : _validate_budget (plan.budget.getD (.int 0)) with ⟨bv, be, bc⟩
  rcases ht : _validate_date_time cur (plan.timing.getD "today") with ⟨tv, te, tc⟩
  rcases hd : _validate_date_type (plan.date_type.getD "") with ⟨dv, de, dc⟩
  cases cv <;> cases bv <;> cases tv <;> cases dv <;> simp

/-- When all four field validators accept, `validate_plan` returns
`all_valid = true`, an empty diagnostic, and the four corrected values. -/
theorem validate_plan_of_valid (cur : SimpleDate) (plan : CandidatePlan)
    (c1 : String) (b1 : Int) (t1 d1 : String)
    (hc : _validate_city (plan.city.getD "") = (true, "", c1))
    (hb : _validate_budget (plan.budget.getD (.int 0)) = (true, "", b1))
    (ht : _validate_date_time cur (plan.timing.getD "today") = (true, "", t1))
    (hd : _validate_date_type (plan.date_type.getD "") = (true, "", d1)) :
    validate_plan cur plan = (true, "", ⟨c1, b1, t1, d1⟩) := by
  simp only [validate_plan, hc, hb, ht, hd]
  simp

/-- C9: validating an already-corrected plan (with the same current-date
reading) yields `all_valid = true`, an empty diagnostic, and the same
corrected plan: the corrected plan is a fixed point. -/
theorem validate_plan_idempotent (cur : SimpleDate) (plan : CandidatePlan) :
    validate_plan cur (liftPlan (validate_plan cur plan).2.2) =
      (true, "", (validate_plan cur plan).2.2) := by
  rw [validate_plan_corrected cur plan]
  exact validate_plan_of_valid cur _ _ _ _ _
    (city_idem (plan.city.getD ""))
    (budget_idem (plan.budget.getD (.int 0)))
    (vdt_idem cur (plan.timing.getD "today"))
    (dtype_idem (plan.date_type.getD ""))

/-- A rollover-produced timing string is never empty (it contains the
space between month name and padded day). -/
theorem fmtMD_ne (m day : Nat) : fmtMD m day ≠ "" := by
  intro h
  have hl : (fmtMD m day).length = 0 := by rw [h]; rfl
  unfold fmtMD at hl
  rw [String.length_append, String.length_append] at hl
  have h1 : (" " : String).length = 1 := rfl
  omega

/-- The corrected timing is empty only when the input timing was. -/
theorem timing_corrected_ne (cur : SimpleDate) (t : String) (ht : t ≠ "") :
    (_validate_date_time cur t).2.2 ≠ "" := by
  rcases vdt_cases cur t with h | h | ⟨m, day, hm, hd, h⟩ <;> rw [h]
  · exact ht
  · show ("today" : String) ≠ ""
    decide
  · exact fmtMD_ne m day

/-- The corrected city is either a recognized city (after normalisation)
or the default. -/
theorem city_corrected_domain (c : String) :
    strOf (pyNorm ((_validate_city c).2.2)) ∈ SUPPORTED_CITIES ∨
      (_validate_city c).2.2 = "Bangalore" := by
  by_cases h1 : strOf (pyNorm c) = ""
  · right; unfold _validate_city; simp [h1]
  · by_cases h2 : strOf (pyNorm c) ∈ SUPPORTED_CITIES
    · left
      have hr : _validate_city c = (true, "", c) := by
        unfold _validate_city; simp [h1, h2]
      rw [hr]; exact h2
    · right; unfold _validate_city; simp [h1, h2]

/-- The corrected date type is never empty. -/
theorem dtype_corrected_ne (s : String) : (_validate_date_type s).2.2 ≠ "" := by
  by_cases h : strOf (pyNorm s) = ""
  · have hr : _validate_date_type s =
        (false, "Date type not specified. Using 'casual'.", "casual") := by
      unfold _validate_date_type; simp [h]
    rw [hr]; decide
  · have hr : _validate_date_type s = (true, "", s) := by
      unfold _validate_date_type; simp [h]
    rw [hr]
    show s ≠ ""
    intro he
    exact h (by rw [he]; rfl)

/-- C4 counterexample: a plan whose timing key holds the empty string is
returned with an empty corrected timing (and even counted fully valid),
so the corrected plan is NOT always fully populated. -/
theorem validated_fields_counterexample :
    (validate_plan ⟨2024, 6, 15⟩
      ⟨some "Mumbai", some (.int 1500), some "", some "casual"⟩).2.2.timing = "" ∧
    (validate_plan ⟨2024, 6, 15⟩
      ⟨some "Mumbai", some (.int 1500), some "", some "casual"⟩).1 = true :=
  ⟨rfl, rfl⟩

/-- C4 (amended): `validate_plan` is total (the embedding is a total
function, mirroring that no branch of the source raises), and for every
input whose timing value is not the literal empty string the corrected
plan's fields are within their domains: the city is recognized or the
default, the budget lies in [500, 50000], the timing is non-empty, the
date type is non-empty.  (An input timing equal to "" is fail-open
accepted unchanged, leaving an empty corrected timing.) -/
theorem validated_fields_amended (cur : SimpleDate) (plan : CandidatePlan)
    (ht : plan.timing ≠ some "") :
    (strOf (pyNorm ((validate_plan cur plan).2.2.city)) ∈ SUPPORTED_CITIES ∨
      (validate_plan cur plan).2.2.city = "Bangalore") ∧
    500 ≤ (validate_plan cur plan).2.2.budget ∧
    (validate_plan cur plan).2.2.budget ≤ 50000 ∧
    (validate_plan cur plan).2.2.timing ≠ "" ∧
    (validate_plan cur plan).2.2.date_type ≠ "" := by
  rw [validate_plan_corrected cur plan]
  refine ⟨city_corrected_domain _, (budget_corrected_range _).1,
    (budget_corrected_range _).2, ?_, dtype_corrected_ne _⟩
  apply timing_corrected_ne
  cases hpt : plan.timing with
  | none => decide
  | some t =>
    simp only [Option.getD_some]
    intro he
    exact ht (by rw [hpt, he])

/-- Witness for the amended C4 at a malformed concrete plan. -/
theorem validated_fields_amended_witness :
    (strOf (pyNorm ((validate_plan ⟨2024, 6, 15⟩
        ⟨some "Atlantis", some .noneV, some "sometime nice", some ""⟩).2.2.city)) ∈
        SUPPORTED_CITIES ∨
      (validate_plan ⟨2024, 6, 15⟩
        ⟨some "Atlantis", some .noneV, some "sometime nice", some ""⟩).2.2.city =
        "Bangalore") ∧
    500 ≤ (validate_plan ⟨2024, 6, 15⟩
      ⟨some "Atlantis", some .noneV, some "sometime nice", some ""⟩).2.2.budget ∧
    (validate_plan ⟨2024, 6, 15⟩
      ⟨some "Atlantis", some .noneV, some "sometime nice", some ""⟩).2.2.budget ≤ 50000 ∧
    (validate_plan ⟨2024, 6, 15⟩
      ⟨some "Atlantis", some .noneV, some "sometime nice", some ""⟩).2.2.timing ≠ "" ∧
    (validate_plan ⟨2024, 6, 15⟩
      ⟨some "Atlantis", some .noneV, some "sometime nice", some ""⟩).2.2.date_type ≠ "" :=
  validated_fields_amended ⟨2024, 6, 15⟩
    ⟨some "Atlantis", some .noneV, some "sometime nice", some ""⟩ (by decide)

/-- Witness for C10: a plan missing only the budget key comes back
invalid with the budget clamped to 500. -/
theorem missing_keys_defaults_witness :
    (validate_plan ⟨2024, 6, 15⟩
      ⟨some "Mumbai", Option.none, some "tomorrow", some "fun"⟩).1 = false ∧
    (validate_plan ⟨2024, 6, 15⟩
      ⟨some "Mumbai", Option.none, some "tomorrow", some "fun"⟩).2.2.budget = 500 :=
  (missing_keys_defaults ⟨2024, 6, 15⟩).2
    ⟨some "Mumbai", Option.none, some "tomorrow", some "fun"⟩ rfl
